import Mathlib

/-!
Shallow embedding of `glustolibs/gluster/geo_rep_ops.py`, a library of helper
functions that format gluster geo-replication shell commands and delegate
execution to an injected remote runner (`g.run` / `g.run_parallel`).

The runner is modelled as a function from (host, command) to a result triple
(status, stdout, stderr); the parallel runner maps (hosts, command) to an
association list from host to result triple (Python dict iteration order is
the list order).  Python string interpolation `%s` becomes string append;
Python truthiness of an optional string argument (`if user:`) is modelled by
`pyTruthy`; the Python substring test `pat in s` becomes `strContains s pat`.
-/

namespace GeoRep

/-- (status, stdout, stderr) triple returned by one command execution. -/
abbrev CmdResult := Int × String × String

/-- The injected single-host executor: `g.run(host, cmd)`. -/
abbrev Runner := String → String → CmdResult

/-- Result of `g.run_parallel`: a host-to-triple mapping, as an association
list in iteration order. -/
abbrev ParallelResults := List (String × CmdResult)

/-- The injected fan-out executor: `g.run_parallel(hosts, cmd)`. -/
abbrev ParallelRunner := List String → String → ParallelResults

/-- Python truthiness of the optional `user` argument: `None` and the empty
string are falsy, every other string is truthy. -/
def pyTruthy : Option String → Bool
  | none => false
  | some s => s != ""

/-- Python substring test `pat in s`. -/
def strContains (s pat : String) : Bool := decide (List.IsInfix pat.data s.data)

/-- Command built by `georep_createpem`. -/
def georep_createpem_cmd : String := "gluster system:: execute gsec_create"

/-- `georep_createpem(mnode)`: runs `gsec_create` and forwards the triple. -/
def georep_createpem (run : Runner) (mnode : String) : CmdResult :=
  run mnode georep_createpem_cmd

/-- Command built by `georep_ssh_keygen`. -/
def georep_ssh_keygen_cmd : String :=
  "echo -e \"n\" | ssh-keygen -f ~/.ssh/id_rsa -q -N \"\""

/-- `georep_ssh_keygen(mnode)`: `if ret and "already exists" not in out:
return False; return True`. -/
def georep_ssh_keygen (run : Runner) (mnode : String) : Bool :=
  let r := run mnode georep_ssh_keygen_cmd
  let ret := r.1
  let out := r.2.1
  if ret != 0 && !(strContains out "already exists") then false else true

/-- Command built by `georep_ssh_copyid`. -/
def georep_ssh_copyid_cmd (tonode user passwd : String) : String :=
  "sshpass -p \"" ++ passwd ++ "\" ssh-copy-id -o StrictHostKeyChecking=no " ++
    user ++ "@" ++ tonode

/-- `georep_ssh_copyid(mnode, tonode, user, passwd)`: `if ret: return False;
return True`. -/
def georep_ssh_copyid (run : Runner) (mnode tonode user passwd : String) : Bool :=
  let r := run mnode (georep_ssh_copyid_cmd tonode user passwd)
  let ret := r.1
  if ret != 0 then false else true

/-- Command built by `georep_groupadd`. -/
def georep_groupadd_cmd (groupname : String) : String := "groupadd " ++ groupname

/-- `georep_groupadd(servers, groupname)`: runs `groupadd` on every server in
parallel, then folds the per-host triples; a host with non-zero status whose
stderr does not contain "already exists" clears the accumulator. -/
def georep_groupadd (runParallel : ParallelRunner)
    (servers : List String) (groupname : String) : Bool :=
  let results := runParallel servers (georep_groupadd_cmd groupname)
  let rc := results.foldl
    (fun rc entry =>
      let retcode := entry.2.1
      let err := entry.2.2.2
      if retcode != 0 && !(strContains err "already exists") then false else rc)
    true
  if !rc then false else true

/-- Command built by `georep_geoaccount`. -/
def georep_geoaccount_cmd (groupname groupaccount : String) : String :=
  "useradd -G " ++ groupname ++ " " ++ groupaccount

/-- `georep_geoaccount(servers, groupname, groupaccount)`: same fan-out fold
as `georep_groupadd`, on `useradd`. -/
def georep_geoaccount (runParallel : ParallelRunner)
    (servers : List String) (groupname groupaccount : String) : Bool :=
  let results := runParallel servers (georep_geoaccount_cmd groupname groupaccount)
  let rc := results.foldl
    (fun rc entry =>
      let retcode := entry.2.1
      let err := entry.2.2.2
      if retcode != 0 && !(strContains err "already exists") then false else rc)
    true
  if !rc then false else true

/-- Command built by `georep_geoaccount_setpasswd`. -/
def georep_geoaccount_setpasswd_cmd (groupaccount passwd : String) : String :=
  "echo " ++ groupaccount ++ ":" ++ passwd ++ " | chpasswd"

/-- `georep_geoaccount_setpasswd(servers, groupname, groupaccount, passwd)`:
fan-out fold where any non-zero status clears the accumulator, with no
substring exemption.  (`groupname` is accepted but unused by the command,
as in the source.) -/
def georep_geoaccount_setpasswd (runParallel : ParallelRunner)
    (servers : List String) (groupname groupaccount passwd : String) : Bool :=
  let _ := groupname
  let results := runParallel servers (georep_geoaccount_setpasswd_cmd groupaccount passwd)
  let rc := results.foldl
    (fun rc entry =>
      let retcode := entry.2.1
      if retcode != 0 then false else rc)
    true
  if !rc then false else true

/-- Command built by `georep_mountbroker_setup`. -/
def georep_mountbroker_setup_cmd (groupname directory : String) : String :=
  "gluster-mountbroker setup " ++ directory ++ " " ++ groupname

/-- `georep_mountbroker_setup(mnode, groupname, directory)`. -/
def georep_mountbroker_setup (run : Runner) (mnode groupname directory : String) :
    CmdResult :=
  run mnode (georep_mountbroker_setup_cmd groupname directory)

/-- Command built by `georep_mountbroker_adduser`. -/
def georep_mountbroker_adduser_cmd (slavevol useraccount : String) : String :=
  "gluster-mountbroker add " ++ slavevol ++ " " ++ useraccount

/-- `georep_mountbroker_adduser(mnode, slavevol, useraccount)`. -/
def georep_mountbroker_adduser (run : Runner) (mnode slavevol useraccount : String) :
    CmdResult :=
  run mnode (georep_mountbroker_adduser_cmd slavevol useraccount)

/-- Command built by `georep_mountbroker_status`. -/
def georep_mountbroker_status_cmd : String := "gluster-mountbroker status"

/-- `georep_mountbroker_status(mnode)`. -/
def georep_mountbroker_status (run : Runner) (mnode : String) : CmdResult :=
  run mnode georep_mountbroker_status_cmd

/-- Command built by `georep_set_pemkeys`. -/
def georep_set_pemkeys_cmd (useraccount mastervol slavevol : String) : String :=
  "/usr/libexec/glusterfs/set_geo_rep_pem_keys.sh " ++ useraccount ++ " " ++
    mastervol ++ " " ++ slavevol

/-- `georep_set_pemkeys(mnode, useraccount, mastervol, slavevol)`. -/
def georep_set_pemkeys (run : Runner) (mnode useraccount mastervol slavevol : String) :
    CmdResult :=
  run mnode (georep_set_pemkeys_cmd useraccount mastervol slavevol)

/-- Command built by `georep_status`: branches on the truthiness of `user`. -/
def georep_status_cmd (mastervol slaveip slavevol : String)
    (user : Option String) : String :=
  if pyTruthy user then
    "gluster volume geo-replication " ++ mastervol ++ " " ++ user.getD "" ++ "@" ++
      slaveip ++ "::" ++ slavevol ++ " status"
  else
    "gluster volume geo-replication " ++ mastervol ++ " " ++
      slaveip ++ "::" ++ slavevol ++ " status"

/-- `georep_status(mnode, mastervol, slaveip, slavevol, user=None)`. -/
def georep_status (run : Runner) (mnode mastervol slaveip slavevol : String)
    (user : Option String) : CmdResult :=
  run mnode (georep_status_cmd mastervol slaveip slavevol user)

/-- Command built by `georep_create`: branches on `user` truthiness and on
`force`. -/
def georep_create_cmd (mastervol slaveip slavevol : String)
    (user : Option String) (force : Bool) : String :=
  if pyTruthy user then
    if force then
      "gluster volume geo-replication " ++ mastervol ++ " " ++ user.getD "" ++ "@" ++
        slaveip ++ "::" ++ slavevol ++ " create push-pem force"
    else
      "gluster volume geo-replication " ++ mastervol ++ " " ++ user.getD "" ++ "@" ++
        slaveip ++ "::" ++ slavevol ++ " create push-pem"
  else
    if force then
      "gluster volume geo-replication " ++ mastervol ++ " " ++
        slaveip ++ "::" ++ slavevol ++ " create push-pem force"
    else
      "gluster volume geo-replication " ++ mastervol ++ " " ++
        slaveip ++ "::" ++ slavevol ++ " create push-pem"

/-- `georep_create(mnode, mastervol, slaveip, slavevol, user=None, force=False)`. -/
def georep_create (run : Runner) (mnode mastervol slaveip slavevol : String)
    (user : Option String) (force : Bool) : CmdResult :=
  run mnode (georep_create_cmd mastervol slaveip slavevol user force)

/-- Command built by `georep_config_get` (no user parameter). -/
def georep_config_get_cmd (mastervol slaveip slavevol config_key : String) : String :=
  "gluster volume geo-replication " ++ mastervol ++ " " ++
    slaveip ++ "::" ++ slavevol ++ " config " ++ config_key

/-- `georep_config_get(mnode, mastervol, slaveip, slavevol, config_key)`. -/
def georep_config_get (run : Runner)
    (mnode mastervol slaveip slavevol config_key : String) : CmdResult :=
  run mnode (georep_config_get_cmd mastervol slaveip slavevol config_key)

/-- Command built by `georep_config_set` (no user parameter). -/
def georep_config_set_cmd (mastervol slaveip slavevol config value : String) : String :=
  "gluster volume geo-replication " ++ mastervol ++ " " ++
    slaveip ++ "::" ++ slavevol ++ " config " ++ config ++ " " ++ value

/-- `georep_config_set(mnode, mastervol, slaveip, slavevol, config, value)`. -/
def georep_config_set (run : Runner)
    (mnode mastervol slaveip slavevol config value : String) : CmdResult :=
  run mnode (georep_config_set_cmd mastervol slaveip slavevol config value)

/-- Command built by `georep_start`. -/
def georep_start_cmd (mastervol slaveip slavevol : String)
    (user : Option String) (force : Bool) : String :=
  if pyTruthy user then
    if force then
      "gluster volume geo-replication " ++ mastervol ++ " " ++ user.getD "" ++ "@" ++
        slaveip ++ "::" ++ slavevol ++ " start force"
    else
      "gluster volume geo-replication " ++ mastervol ++ " " ++ user.getD "" ++ "@" ++
        slaveip ++ "::" ++ slavevol ++ " start"
  else
    if force then
      "gluster volume geo-replication " ++ mastervol ++ " " ++
        slaveip ++ "::" ++ slavevol ++ " start force"
    else
      "gluster volume geo-replication " ++ mastervol ++ " " ++
        slaveip ++ "::" ++ slavevol ++ " start"

/-- `georep_start(mnode, mastervol, slaveip, slavevol, user=None, force=False)`. -/
def georep_start (run : Runner) (mnode mastervol slaveip slavevol : String)
    (user : Option String) (force : Bool) : CmdResult :=
  run mnode (georep_start_cmd mastervol slaveip slavevol user force)

/-- Command built by `georep_stop`. -/
def georep_stop_cmd (mastervol slaveip slavevol : String)
    (user : Option String) (force : Bool) : String :=
  if pyTruthy user then
    if force then
      "gluster volume geo-replication " ++ mastervol ++ " " ++ user.getD "" ++ "@" ++
        slaveip ++ "::" ++ slavevol ++ " stop force"
    else
      "gluster volume geo-replication " ++ mastervol ++ " " ++ user.getD "" ++ "@" ++
        slaveip ++ "::" ++ slavevol ++ " stop"
  else
    if force then
      "gluster volume geo-replication " ++ mastervol ++ " " ++
        slaveip ++ "::" ++ slavevol ++ " stop force"
    else
      "gluster volume geo-replication " ++ mastervol ++ " " ++
        slaveip ++ "::" ++ slavevol ++ " stop"

/-- `georep_stop(mnode, mastervol, slaveip, slavevol, user=None, force=False)`. -/
def georep_stop (run : Runner) (mnode mastervol slaveip slavevol : String)
    (user : Option String) (force : Bool) : CmdResult :=
  run mnode (georep_stop_cmd mastervol slaveip slavevol user force)

/-- Command built by `georep_pause`. -/
def georep_pause_cmd (mastervol slaveip slavevol : String)
    (user : Option String) : String :=
  if pyTruthy user then
    "gluster volume geo-replication " ++ mastervol ++ " " ++ user.getD "" ++ "@" ++
      slaveip ++ "::" ++ slavevol ++ " pause"
  else
    "gluster volume geo-replication " ++ mastervol ++ " " ++
      slaveip ++ "::" ++ slavevol ++ " pause"

/-- `georep_pause(mnode, mastervol, slaveip, slavevol, user=None)`. -/
def georep_pause (run : Runner) (mnode mastervol slaveip slavevol : String)
    (user : Option String) : CmdResult :=
  run mnode (georep_pause_cmd mastervol slaveip slavevol user)

/-- Command built by `georep_resume`. -/
def georep_resume_cmd (mastervol slaveip slavevol : String)
    (user : Option String) : String :=
  if pyTruthy user then
    "gluster volume geo-replication " ++ mastervol ++ " " ++ user.getD "" ++ "@" ++
      slaveip ++ "::" ++ slavevol ++ " resume"
  else
    "gluster volume geo-replication " ++ mastervol ++ " " ++
      slaveip ++ "::" ++ slavevol ++ " resume"

/-- `georep_resume(mnode, mastervol, slaveip, slavevol, user=None)`. -/
def georep_resume (run : Runner) (mnode mastervol slaveip slavevol : String)
    (user : Option String) : CmdResult :=
  run mnode (georep_resume_cmd mastervol slaveip slavevol user)

/-- Command built by `georep_delete`. -/
def georep_delete_cmd (mastervol slaveip slavevol : String)
    (user : Option String) : String :=
  if pyTruthy user then
    "gluster volume geo-replication " ++ mastervol ++ " " ++ user.getD "" ++ "@" ++
      slaveip ++ "::" ++ slavevol ++ " delete"
  else
    "gluster volume geo-replication " ++ mastervol ++ " " ++
      slaveip ++ "::" ++ slavevol ++ " delete"

/-- `georep_delete(mnode, mastervol, slaveip, slavevol, user=None)`. -/
def georep_delete (run : Runner) (mnode mastervol slaveip slavevol : String)
    (user : Option String) : CmdResult :=
  run mnode (georep_delete_cmd mastervol slaveip slavevol user)

/-- A per-host result is acceptable to the group/user-creation fold when its
status is zero or its stderr contains "already exists". -/
def groupEntryOk (r : CmdResult) : Bool :=
  !(r.1 != 0 && !(strContains r.2.2 "already exists"))

/-- A per-host result is acceptable to the password-set fold only when its
status is zero. -/
def passwdEntryOk (r : CmdResult) : Bool := !(r.1 != 0)

/-- The spec's address grammar for a non-root user:
`<user>@<slavehost>::<slavevol>`. -/
def slave_endpoint_user (user slaveip slavevol : String) : String :=
  user ++ "@" ++ slaveip ++ "::" ++ slavevol

/-- The spec's address grammar for the root user: `<slavehost>::<slavevol>`. -/
def slave_endpoint_root (slaveip slavevol : String) : String :=
  slaveip ++ "::" ++ slavevol

/-! ## General lemmas about the fan-out fold -/

/-- A fold that clears a boolean accumulator on every "bad" element and
otherwise keeps it equals the accumulator conjoined with `all` of "not bad":
the fold inspects every element and never short-circuits. -/
theorem foldl_clear_eq_all {α : Type} (bad : α → Bool) (l : List α) (acc : Bool) :
    l.foldl (fun rc e => if bad e then false else rc) acc
      = (acc && l.all (fun e => !bad e)) := by
  induction l generalizing acc with
  | nil => simp
  | cons e t ih =>
    simp only [List.foldl_cons, List.all_cons]
    rw [ih]
    cases h : bad e <;> simp [h]

/-- `List.all` is invariant under permutation of the list. -/
theorem all_eq_of_perm {α : Type} {l1 l2 : List α} (p : α → Bool) (h : l1.Perm l2) :
    l1.all p = l2.all p := by
  rw [Bool.eq_iff_iff]
  simp only [List.all_eq_true]
  exact ⟨fun H x hx => H x (h.mem_iff.mpr hx), fun H x hx => H x (h.mem_iff.mp hx)⟩

theorem if_not_self_eq (b : Bool) : (if (!b) = true then false else true) = b := by
  cases b <;> rfl

theorem all_of_map {α β : Type} (f : α → β) (p : β → Bool) (l : List α) :
    (l.map f).all p = l.all (fun a => p (f a)) := by
  induction l with
  | nil => rfl
  | cons e t ih => simp only [List.map_cons, List.all_cons, ih]

/-- `georep_groupadd` is `all groupEntryOk` over the per-host result triples. -/
theorem georep_groupadd_char (rp : ParallelRunner) (servers : List String)
    (groupname : String) :
    georep_groupadd rp servers groupname =
      ((rp servers (georep_groupadd_cmd groupname)).map Prod.snd).all groupEntryOk := by
  unfold georep_groupadd
  dsimp only
  rw [foldl_clear_eq_all, Bool.true_and, if_not_self_eq, all_of_map]
  rfl

/-- `georep_geoaccount` is `all groupEntryOk` over the per-host result triples. -/
theorem georep_geoaccount_char (rp : ParallelRunner) (servers : List String)
    (groupname groupaccount : String) :
    georep_geoaccount rp servers groupname groupaccount =
      ((rp servers (georep_geoaccount_cmd groupname groupaccount)).map Prod.snd).all
        groupEntryOk := by
  unfold georep_geoaccount
  dsimp only
  rw [foldl_clear_eq_all, Bool.true_and, if_not_self_eq, all_of_map]
  rfl

/-- `georep_geoaccount_setpasswd` is `all passwdEntryOk` over the per-host
result triples. -/
theorem georep_geoaccount_setpasswd_char (rp : ParallelRunner) (servers : List String)
    (groupname groupaccount passwd : String) :
    georep_geoaccount_setpasswd rp servers groupname groupaccount passwd =
      ((rp servers (georep_geoaccount_setpasswd_cmd groupaccount passwd)).map
        Prod.snd).all passwdEntryOk := by
  unfold georep_geoaccount_setpasswd
  dsimp only
  rw [foldl_clear_eq_all, Bool.true_and, if_not_self_eq, all_of_map]
  rfl

theorem groupEntryOk_iff (r : CmdResult) :
    groupEntryOk r = true ↔ (r.1 = 0 ∨ strContains r.2.2 "already exists" = true) := by
  unfold groupEntryOk
  by_cases h0 : r.1 = 0
  · simp [h0]
  · by_cases h1 : strContains r.2.2 "already exists" = true <;> simp [h0, h1]

theorem passwdEntryOk_iff (r : CmdResult) : passwdEntryOk r = true ↔ r.1 = 0 := by
  unfold passwdEntryOk
  by_cases h0 : r.1 = 0 <;> simp [h0]

/-! ## Claim theorems -/

/-- Claim C3: for the fan-out group-creation and user-creation operations, the
returned boolean is true exactly when every host's result either has exit
status 0 or has a stderr containing the substring "already exists"; hence it
is true when all hosts succeed, still true when every failing host's stderr
contains "already exists", and false as soon as one host fails with a stderr
not containing "already exists". -/
theorem C3_fanout_already_exists_exemption :
    ∀ (rp : ParallelRunner) (servers : List String) (groupname groupaccount : String),
      (georep_groupadd rp servers groupname = true ↔
        ∀ e ∈ rp servers (georep_groupadd_cmd groupname),
          e.2.1 = 0 ∨ strContains e.2.2.2 "already exists" = true) ∧
      (georep_geoaccount rp servers groupname groupaccount = true ↔
        ∀ e ∈ rp servers (georep_geoaccount_cmd groupname groupaccount),
          e.2.1 = 0 ∨ strContains e.2.2.2 "already exists" = true) := by
  intro rp servers groupname groupaccount
  constructor
  · rw [georep_groupadd_char, List.all_eq_true]
    constructor
    · intro H e he
      exact (groupEntryOk_iff e.2).mp (H e.2 (List.mem_map_of_mem Prod.snd he))
    · intro H r hr
      rcases List.mem_map.mp hr with ⟨e, he, rfl⟩
      exact (groupEntryOk_iff e.2).mpr (H e he)
  · rw [georep_geoaccount_char, List.all_eq_true]
    constructor
    · intro H e he
      exact (groupEntryOk_iff e.2).mp (H e.2 (List.mem_map_of_mem Prod.snd he))
    · intro H r hr
      rcases List.mem_map.mp hr with ⟨e, he, rfl⟩
      exact (groupEntryOk_iff e.2).mpr (H e he)

/-- Claim C4: the fan-out password-set operation returns true exactly when
every host's exit status is 0; any non-zero status on any host makes it
false, with no "already exists" exemption. -/
theorem C4_setpasswd_no_exemption :
    ∀ (rp : ParallelRunner) (servers : List String)
      (groupname groupaccount passwd : String),
      (georep_geoaccount_setpasswd rp servers groupname groupaccount passwd = true ↔
        ∀ e ∈ rp servers (georep_geoaccount_setpasswd_cmd groupaccount passwd),
          e.2.1 = 0) := by
  intro rp servers groupname groupaccount passwd
  rw [georep_geoaccount_setpasswd_char, List.all_eq_true]
  constructor
  · intro H e he
    exact (passwdEntryOk_iff e.2).mp (H e.2 (List.mem_map_of_mem Prod.snd he))
  · intro H r hr
    rcases List.mem_map.mp hr with ⟨e, he, rfl⟩
    exact (passwdEntryOk_iff e.2).mpr (H e he)

/-- Claim C10: each fan-out operation's boolean depends only on the multiset of
per-host (status, stdout, stderr) triples produced by `run_parallel`: two
parallel runners whose result triples are permutations of one another (host
labels and iteration order may differ) give the same boolean for group add,
user add, and password set. -/
theorem C10_fanout_order_invariance :
    ∀ (rp1 rp2 : ParallelRunner) (servers : List String)
      (groupname groupaccount passwd : String),
      (((rp1 servers (georep_groupadd_cmd groupname)).map Prod.snd).Perm
          ((rp2 servers (georep_groupadd_cmd groupname)).map Prod.snd) →
        georep_groupadd rp1 servers groupname = georep_groupadd rp2 servers groupname) ∧
      (((rp1 servers (georep_geoaccount_cmd groupname groupaccount)).map Prod.snd).Perm
          ((rp2 servers (georep_geoaccount_cmd groupname groupaccount)).map Prod.snd) →
        georep_geoaccount rp1 servers groupname groupaccount =
          georep_geoaccount rp2 servers groupname groupaccount) ∧
      (((rp1 servers (georep_geoaccount_setpasswd_cmd groupaccount passwd)).map
          Prod.snd).Perm
          ((rp2 servers (georep_geoaccount_setpasswd_cmd groupaccount passwd)).map
            Prod.snd) →
        georep_geoaccount_setpasswd rp1 servers groupname groupaccount passwd =
          georep_geoaccount_setpasswd rp2 servers groupname groupaccount passwd) := by
  intro rp1 rp2 servers groupname groupaccount passwd
  refine ⟨fun h => ?_, fun h => ?_, fun h => ?_⟩
  · rw [georep_groupadd_char, georep_groupadd_char]
    exact all_eq_of_perm groupEntryOk h
  · rw [georep_geoaccount_char, georep_geoaccount_char]
    exact all_eq_of_perm groupEntryOk h
  · rw [georep_geoaccount_setpasswd_char, georep_geoaccount_setpasswd_char]
    exact all_eq_of_perm passwdEntryOk h

/-- A concrete parallel runner: one succeeding host, one host failing with an
"already exists" diagnostic. -/
def rpA : ParallelRunner := fun _ _ =>
  [("host1", ((0 : Int), "", "")),
   ("host2", ((1 : Int), "", "useradd: group geogroup already exists"))]

/-- The same result triples as `rpA`, under other host labels and in the
opposite iteration order. -/
def rpB : ParallelRunner := fun _ _ =>
  [("node9", ((1 : Int), "", "useradd: group geogroup already exists")),
   ("node8", ((0 : Int), "", ""))]

/-- Witness for claim C10 at the concrete runners `rpA` and `rpB`. -/
theorem C10_fanout_order_invariance_witness :
    (((rpA ["s1"] (georep_groupadd_cmd "geogroup")).map Prod.snd).Perm
        ((rpB ["s1"] (georep_groupadd_cmd "geogroup")).map Prod.snd)) ∧
    (((rpA ["s1"] (georep_geoaccount_cmd "geogroup" "geoacct")).map Prod.snd).Perm
        ((rpB ["s1"] (georep_geoaccount_cmd "geogroup" "geoacct")).map Prod.snd)) ∧
    (((rpA ["s1"] (georep_geoaccount_setpasswd_cmd "geoacct" "pw")).map Prod.snd).Perm
        ((rpB ["s1"] (georep_geoaccount_setpasswd_cmd "geoacct" "pw")).map Prod.snd)) ∧
    georep_groupadd rpA ["s1"] "geogroup" = georep_groupadd rpB ["s1"] "geogroup" ∧
    georep_geoaccount rpA ["s1"] "geogroup" "geoacct" =
      georep_geoaccount rpB ["s1"] "geogroup" "geoacct" ∧
    georep_geoaccount_setpasswd rpA ["s1"] "geogroup" "geoacct" "pw" =
      georep_geoaccount_setpasswd rpB ["s1"] "geogroup" "geoacct" "pw" :=
  ⟨by decide, by decide, by decide,
   (C10_fanout_order_invariance rpA rpB ["s1"] "geogroup" "geoacct" "pw").1 (by decide),
   (C10_fanout_order_invariance rpA rpB ["s1"] "geogroup" "geoacct" "pw").2.1 (by decide),
   (C10_fanout_order_invariance rpA rpB ["s1"] "geogroup" "geoacct" "pw").2.2 (by decide)⟩

/-- Claim C6: every single-host operation returns exactly the (status, stdout,
stderr) triple the executor returned for its command, with no element
transformed, truncated, or reordered. -/
theorem C6_pass_through_fidelity :
    ∀ (run : Runner) (mnode groupname directory slavevol useraccount mastervol
        slaveip config_key value : String) (user : Option String) (force : Bool),
      georep_createpem run mnode = run mnode georep_createpem_cmd ∧
      georep_mountbroker_setup run mnode groupname directory =
        run mnode (georep_mountbroker_setup_cmd groupname directory) ∧
      georep_mountbroker_adduser run mnode slavevol useraccount =
        run mnode (georep_mountbroker_adduser_cmd slavevol useraccount) ∧
      georep_mountbroker_status run mnode = run mnode georep_mountbroker_status_cmd ∧
      georep_set_pemkeys run mnode useraccount mastervol slavevol =
        run mnode (georep_set_pemkeys_cmd useraccount mastervol slavevol) ∧
      georep_status run mnode mastervol slaveip slavevol user =
        run mnode (georep_status_cmd mastervol slaveip slavevol user) ∧
      georep_create run mnode mastervol slaveip slavevol user force =
        run mnode (georep_create_cmd mastervol slaveip slavevol user force) ∧
      georep_config_get run mnode mastervol slaveip slavevol config_key =
        run mnode (georep_config_get_cmd mastervol slaveip slavevol config_key) ∧
      georep_config_set run mnode mastervol slaveip slavevol config_key value =
        run mnode (georep_config_set_cmd mastervol slaveip slavevol config_key value) ∧
      georep_start run mnode mastervol slaveip slavevol user force =
        run mnode (georep_start_cmd mastervol slaveip slavevol user force) ∧
      georep_stop run mnode mastervol slaveip slavevol user force =
        run mnode (georep_stop_cmd mastervol slaveip slavevol user force) ∧
      georep_pause run mnode mastervol slaveip slavevol user =
        run mnode (georep_pause_cmd mastervol slaveip slavevol user) ∧
      georep_resume run mnode mastervol slaveip slavevol user =
        run mnode (georep_resume_cmd mastervol slaveip slavevol user) ∧
      georep_delete run mnode mastervol slaveip slavevol user =
        run mnode (georep_delete_cmd mastervol slaveip slavevol user) :=
  fun _ _ _ _ _ _ _ _ _ _ _ _ =>
    ⟨rfl, rfl, rfl, rfl, rfl, rfl, rfl, rfl, rfl, rfl, rfl, rfl, rfl, rfl⟩

/-- Claim C7: the propagate-public-key operation returns true exactly when the
executor's exit status is 0; stdout and stderr play no role (the executor is
universally quantified, so the equivalence holds whatever they contain). -/
theorem C7_ssh_copyid_status_only :
    ∀ (run : Runner) (mnode tonode user passwd : String),
      georep_ssh_copyid run mnode tonode user passwd = true ↔
        (run mnode (georep_ssh_copyid_cmd tonode user passwd)).1 = 0 := by
  intro run mnode tonode user passwd
  unfold georep_ssh_copyid
  dsimp only
  by_cases h : (run mnode (georep_ssh_copyid_cmd tonode user passwd)).1 = 0 <;> simp [h]

/-- Counterexample for claim C5: an executor response with status 1, stdout
empty and stderr containing "already exists" makes `georep_ssh_keygen` return
false, although the claim ("exit status 0 OR stderr/stdout contains the
substring") demands true: the code consults stdout only, never stderr. -/
theorem C5_counterexample_stderr_ignored :
    strContains "id_rsa already exists." "already exists" = true ∧
    ((1 : Int) ≠ 0) ∧
    georep_ssh_keygen (fun _ _ => ((1 : Int), "", "id_rsa already exists.")) "master1"
      = false := by
  decide

/-- Claim C5 as amended: `georep_ssh_keygen` returns true exactly when the
exit status is 0 or the stdout (not stderr) contains "already exists"; for a
non-zero status it returns true when stdout contains the substring and false
otherwise. -/
theorem C5_ssh_keygen_stdout_exemption :
    ∀ (run : Runner) (mnode : String),
      georep_ssh_keygen run mnode = true ↔
        ((run mnode georep_ssh_keygen_cmd).1 = 0 ∨
          strContains (run mnode georep_ssh_keygen_cmd).2.1 "already exists" = true) := by
  intro run mnode
  unfold georep_ssh_keygen
  dsimp only
  by_cases h0 : (run mnode georep_ssh_keygen_cmd).1 = 0 <;>
    by_cases h1 : strContains (run mnode georep_ssh_keygen_cmd).2.1 "already exists"
      = true <;>
    simp [h0, h1]

/-- Claim C1: across all seven session operations (status, create, start,
stop, pause, resume, delete), the slave endpoint inside the emitted command is
`<user>@<slavehost>::<slavevol>` when a non-empty user is supplied and
`<slavehost>::<slavevol>` when the user is omitted, with the same endpoint
substitution (`slave_endpoint_user` / `slave_endpoint_root`) in every
operation and for every force variant. -/
theorem C1_address_grammar :
    ∀ (m s v u : String), u ≠ "" →
      (georep_status_cmd m s v (some u) =
        "gluster volume geo-replication " ++ m ++ " " ++
          slave_endpoint_user u s v ++ " status") ∧
      (georep_status_cmd m s v none =
        "gluster volume geo-replication " ++ m ++ " " ++
          slave_endpoint_root s v ++ " status") ∧
      (georep_create_cmd m s v (some u) false =
        "gluster volume geo-replication " ++ m ++ " " ++
          slave_endpoint_user u s v ++ " create push-pem") ∧
      (georep_create_cmd m s v (some u) true =
        "gluster volume geo-replication " ++ m ++ " " ++
          slave_endpoint_user u s v ++ " create push-pem force") ∧
      (georep_create_cmd m s v none false =
        "gluster volume geo-replication " ++ m ++ " " ++
          slave_endpoint_root s v ++ " create push-pem") ∧
      (georep_create_cmd m s v none true =
        "gluster volume geo-replication " ++ m ++ " " ++
          slave_endpoint_root s v ++ " create push-pem force") ∧
      (georep_start_cmd m s v (some u) false =
        "gluster volume geo-replication " ++ m ++ " " ++
          slave_endpoint_user u s v ++ " start") ∧
      (georep_start_cmd m s v (some u) true =
        "gluster volume geo-replication " ++ m ++ " " ++
          slave_endpoint_user u s v ++ " start force") ∧
      (georep_start_cmd m s v none false =
        "gluster volume geo-replication " ++ m ++ " " ++
          slave_endpoint_root s v ++ " start") ∧
      (georep_start_cmd m s v none true =
        "gluster volume geo-replication " ++ m ++ " " ++
          slave_endpoint_root s v ++ " start force") ∧
      (georep_stop_cmd m s v (some u) false =
        "gluster volume geo-replication " ++ m ++ " " ++
          slave_endpoint_user u s v ++ " stop") ∧
      (georep_stop_cmd m s v (some u) true =
        "gluster volume geo-replication " ++ m ++ " " ++
          slave_endpoint_user u s v ++ " stop force") ∧
      (georep_stop_cmd m s v none false =
        "gluster volume geo-replication " ++ m ++ " " ++
          slave_endpoint_root s v ++ " stop") ∧
      (georep_stop_cmd m s v none true =
        "gluster volume geo-replication " ++ m ++ " " ++
          slave_endpoint_root s v ++ " stop force") ∧
      (georep_pause_cmd m s v (some u) =
        "gluster volume geo-replication " ++ m ++ " " ++
          slave_endpoint_user u s v ++ " pause") ∧
      (georep_pause_cmd m s v none =
        "gluster volume geo-replication " ++ m ++ " " ++
          slave_endpoint_root s v ++ " pause") ∧
      (georep_resume_cmd m s v (some u) =
        "gluster volume geo-replication " ++ m ++ " " ++
          slave_endpoint_user u s v ++ " resume") ∧
      (georep_resume_cmd m s v none =
        "gluster volume geo-replication " ++ m ++ " " ++
          slave_endpoint_root s v ++ " resume") ∧
      (georep_delete_cmd m s v (some u) =
        "gluster volume geo-replication " ++ m ++ " " ++
          slave_endpoint_user u s v ++ " delete") ∧
      (georep_delete_cmd m s v none =
        "gluster volume geo-replication " ++ m ++ " " ++
          slave_endpoint_root s v ++ " delete") := by
  intro m s v u h
  simp [georep_status_cmd, georep_create_cmd, georep_start_cmd, georep_stop_cmd,
    georep_pause_cmd, georep_resume_cmd, georep_delete_cmd, pyTruthy,
    slave_endpoint_user, slave_endpoint_root, h, String.append_assoc]

/-- Witness for claim C1 at master "mvol", slave host "shost", slave volume
"svol", user "geoacct". -/
theorem C1_address_grammar_witness :
    ("geoacct" : String) ≠ "" ∧
    ((georep_status_cmd "mvol" "shost" "svol" (some "geoacct") =
        "gluster volume geo-replication " ++ "mvol" ++ " " ++
          slave_endpoint_user "geoacct" "shost" "svol" ++ " status") ∧
      (georep_status_cmd "mvol" "shost" "svol" none =
        "gluster volume geo-replication " ++ "mvol" ++ " " ++
          slave_endpoint_root "shost" "svol" ++ " status") ∧
      (georep_create_cmd "mvol" "shost" "svol" (some "geoacct") false =
        "gluster volume geo-replication " ++ "mvol" ++ " " ++
          slave_endpoint_user "geoacct" "shost" "svol" ++ " create push-pem") ∧
      (georep_create_cmd "mvol" "shost" "svol" (some "geoacct") true =
        "gluster volume geo-replication " ++ "mvol" ++ " " ++
          slave_endpoint_user "geoacct" "shost" "svol" ++ " create push-pem force") ∧
      (georep_create_cmd "mvol" "shost" "svol" none false =
        "gluster volume geo-replication " ++ "mvol" ++ " " ++
          slave_endpoint_root "shost" "svol" ++ " create push-pem") ∧
      (georep_create_cmd "mvol" "shost" "svol" none true =
        "gluster volume geo-replication " ++ "mvol" ++ " " ++
          slave_endpoint_root "shost" "svol" ++ " create push-pem force") ∧
      (georep_start_cmd "mvol" "shost" "svol" (some "geoacct") false =
        "gluster volume geo-replication " ++ "mvol" ++ " " ++
          slave_endpoint_user "geoacct" "shost" "svol" ++ " start") ∧
      (georep_start_cmd "mvol" "shost" "svol" (some "geoacct") true =
        "gluster volume geo-replication " ++ "mvol" ++ " " ++
          slave_endpoint_user "geoacct" "shost" "svol" ++ " start force") ∧
      (georep_start_cmd "mvol" "shost" "svol" none false =
        "gluster volume geo-replication " ++ "mvol" ++ " " ++
          slave_endpoint_root "shost" "svol" ++ " start") ∧
      (georep_start_cmd "mvol" "shost" "svol" none true =
        "gluster volume geo-replication " ++ "mvol" ++ " " ++
          slave_endpoint_root "shost" "svol" ++ " start force") ∧
      (georep_stop_cmd "mvol" "shost" "svol" (some "geoacct") false =
        "gluster volume geo-replication " ++ "mvol" ++ " " ++
          slave_endpoint_user "geoacct" "shost" "svol" ++ " stop") ∧
      (georep_stop_cmd "mvol" "shost" "svol" (some "geoacct") true =
        "gluster volume geo-replication " ++ "mvol" ++ " " ++
          slave_endpoint_user "geoacct" "shost" "svol" ++ " stop force") ∧
      (georep_stop_cmd "mvol" "shost" "svol" none false =
        "gluster volume geo-replication " ++ "mvol" ++ " " ++
          slave_endpoint_root "shost" "svol" ++ " stop") ∧
      (georep_stop_cmd "mvol" "shost" "svol" none true =
        "gluster volume geo-replication " ++ "mvol" ++ " " ++
          slave_endpoint_root "shost" "svol" ++ " stop force") ∧
      (georep_pause_cmd "mvol" "shost" "svol" (some "geoacct") =
        "gluster volume geo-replication " ++ "mvol" ++ " " ++
          slave_endpoint_user "geoacct" "shost" "svol" ++ " pause") ∧
      (georep_pause_cmd "mvol" "shost" "svol" none =
        "gluster volume geo-replication " ++ "mvol" ++ " " ++
          slave_endpoint_root "shost" "svol" ++ " pause") ∧
      (georep_resume_cmd "mvol" "shost" "svol" (some "geoacct") =
        "gluster volume geo-replication " ++ "mvol" ++ " " ++
          slave_endpoint_user "geoacct" "shost" "svol" ++ " resume") ∧
      (georep_resume_cmd "mvol" "shost" "svol" none =
        "gluster volume geo-replication " ++ "mvol" ++ " " ++
          slave_endpoint_root "shost" "svol" ++ " resume") ∧
      (georep_delete_cmd "mvol" "shost" "svol" (some "geoacct") =
        "gluster volume geo-replication " ++ "mvol" ++ " " ++
          slave_endpoint_user "geoacct" "shost" "svol" ++ " delete") ∧
      (georep_delete_cmd "mvol" "shost" "svol" none =
        "gluster volume geo-replication " ++ "mvol" ++ " " ++
          slave_endpoint_root "shost" "svol" ++ " delete")) :=
  ⟨by decide, C1_address_grammar "mvol" "shost" "svol" "geoacct" (by decide)⟩

/-- Claim C2: the create-session operation with master "mvol", slave host
"10.0.0.5", slave volume "svol", user "geoaccount" and force=true hands the
executor exactly
`gluster volume geo-replication mvol geoaccount@10.0.0.5::svol create push-pem force`;
with force=false the trailing ` force` token is absent; with no user the
`geoaccount@` prefix is absent. -/
theorem C2_create_golden_string :
    ∀ (run : Runner) (mnode : String),
      georep_create run mnode "mvol" "10.0.0.5" "svol" (some "geoaccount") true =
        run mnode
          "gluster volume geo-replication mvol geoaccount@10.0.0.5::svol create push-pem force" ∧
      georep_create run mnode "mvol" "10.0.0.5" "svol" (some "geoaccount") false =
        run mnode
          "gluster volume geo-replication mvol geoaccount@10.0.0.5::svol create push-pem" ∧
      georep_create run mnode "mvol" "10.0.0.5" "svol" none true =
        run mnode
          "gluster volume geo-replication mvol 10.0.0.5::svol create push-pem force" := by
  intro run mnode
  refine ⟨congrArg (run mnode) ?_, congrArg (run mnode) ?_, congrArg (run mnode) ?_⟩ <;>
    decide

/-- Claim C8: for each of the seven operations with an optional user, passing
the empty string as the user yields exactly the same command string as
omitting the user: the root form without an `@` prefix. -/
theorem C8_empty_user_is_root :
    ∀ (m s v : String) (force : Bool),
      georep_status_cmd m s v (some "") = georep_status_cmd m s v none ∧
      georep_create_cmd m s v (some "") force = georep_create_cmd m s v none force ∧
      georep_start_cmd m s v (some "") force = georep_start_cmd m s v none force ∧
      georep_stop_cmd m s v (some "") force = georep_stop_cmd m s v none force ∧
      georep_pause_cmd m s v (some "") = georep_pause_cmd m s v none ∧
      georep_resume_cmd m s v (some "") = georep_resume_cmd m s v none ∧
      georep_delete_cmd m s v (some "") = georep_delete_cmd m s v none :=
  fun _ _ _ _ => ⟨rfl, rfl, rfl, rfl, rfl, rfl, rfl⟩

theorem strContains_append (pre pat post : String) :
    strContains (pre ++ (pat ++ post)) pat = true := by
  unfold strContains
  rw [decide_eq_true_eq]
  refine ⟨pre.data, post.data, ?_⟩
  rw [String.data_append, String.data_append, List.append_assoc]

/-- Claim C9: caller-supplied parameters are interpolated verbatim into the
command string; in particular the plaintext password argument of the
propagate-public-key and password-set operations is a literal substring of the
command handed to the executor. -/
theorem C9_verbatim_interpolation :
    ∀ (tonode user passwd groupaccount : String),
      (georep_ssh_copyid_cmd tonode user passwd =
        "sshpass -p \"" ++ (passwd ++
          ("\" ssh-copy-id -o StrictHostKeyChecking=no " ++ (user ++ ("@" ++ tonode))))) ∧
      strContains (georep_ssh_copyid_cmd tonode user passwd) passwd = true ∧
      (georep_geoaccount_setpasswd_cmd groupaccount passwd =
        "echo " ++ (groupaccount ++ (":" ++ (passwd ++ " | chpasswd")))) ∧
      strContains (georep_geoaccount_setpasswd_cmd groupaccount passwd) passwd = true := by
  intro tonode user passwd groupaccount
  have h1 : georep_ssh_copyid_cmd tonode user passwd =
      "sshpass -p \"" ++ (passwd ++
        ("\" ssh-copy-id -o StrictHostKeyChecking=no " ++ (user ++ ("@" ++ tonode)))) := by
    simp [georep_ssh_copyid_cmd, String.append_assoc]
  have h2 : georep_geoaccount_setpasswd_cmd groupaccount passwd =
      "echo " ++ (groupaccount ++ (":" ++ (passwd ++ " | chpasswd"))) := by
    simp [georep_geoaccount_setpasswd_cmd, String.append_assoc]
  refine ⟨h1, ?_, h2, ?_⟩
  · rw [h1]
    exact strContains_append "sshpass -p \"" passwd
      ("\" ssh-copy-id -o StrictHostKeyChecking=no " ++ (user ++ ("@" ++ tonode)))
  · have h2' : georep_geoaccount_setpasswd_cmd groupaccount passwd =
        ("echo " ++ groupaccount ++ ":") ++ (passwd ++ " | chpasswd") := by
      simp [georep_geoaccount_setpasswd_cmd, String.append_assoc]
    rw [h2']
    exact strContains_append ("echo " ++ groupaccount ++ ":") passwd " | chpasswd"

end GeoRep
